import Mathlib

/-!
Verification of the demo-login-app event collector (ArguxAI SDK) and the
login-page submission/retry logic, as a shallow embedding in Lean 4.

Conventions of the embedding:
* JS objects used as string-keyed property bags are `PropMap`
  (`List (String × JValue)`), read with a last-entry-wins lookup `getProp`,
  so JS object spread `\x7b...a, ...b\x7d` is exactly list append `a ++ b`.
* Ambient browser state read by `track` (`Date.now()`, `window.location.href`,
  `document.title`, `navigator.userAgent`) is an explicit `Ambient` argument.
* The single-threaded event-loop interleaving inside `flush` (events tracked
  while its network `await` is pending) is an explicit `trackedDuring` list,
  and the network outcome (HTTP 2xx vs non-2xx/thrown error) an explicit
  `ok : Bool`; `flush` never throws (its `try/catch` swallows the failure),
  which the embedding reflects by being a total function with no error
  component in its result.
* `localStorage` is an association list written by append, read last-wins.
-/

/-- JSON-like property values carried in event property bags. -/
inductive JValue where
  | str : String → JValue
  | num : Int → JValue
  | bool : Bool → JValue
  | null : JValue
deriving DecidableEq, Repr

/-- A JS object used as a string-keyed bag: entries in insertion order,
later entries override earlier ones (object-spread semantics). -/
abbrev PropMap := List (String × JValue)

/-- Lookup in a `PropMap`: the value of the last entry with the given key,
modelling that in `\x7b...a, ...b\x7d` the later spread wins. -/
def getProp (m : PropMap) (k : String) : Option JValue :=
  m.foldl (fun acc kv => if kv.1 = k then some kv.2 else acc) none

/-- Browser `localStorage`, keys to string values, written by `setItem`. -/
abbrev Storage := List (String × String)

/-- `localStorage.setItem(k, v)`. -/
def setItem (s : Storage) (k v : String) : Storage := s ++ [(k, v)]

/-- `localStorage.getItem(k)`: last write wins, `none` when never written. -/
def getItem (s : Storage) (k : String) : Option String :=
  s.foldl (fun acc kv => if kv.1 = k then some kv.2 else acc) none

/-- The event object constructed by `ArguxAI.track`
(arguxai-sdk.js lines 31-43).  Field names follow the source object
literal: the name of the event is stored under the key `event_name`. -/
structure Event where
  event_name : String
  user_id : String
  session_id : String
  timestamp : Nat
  properties : PropMap
deriving DecidableEq, Repr

/-- The JSON keys of the object literal `track` constructs
(arguxai-sdk.js lines 31-43), in source order; every constructed event is
serialized with exactly these keys. -/
def eventJsonKeys (_ : Event) : List String :=
  ["event_name", "user_id", "session_id", "timestamp", "properties"]

/-- Ambient browser state read inside `track`. -/
structure Ambient where
  now : Nat
  page_url : String
  page_title : String
  user_agent : String
deriving DecidableEq, Repr

/-- The three context entries `track` appends last inside the `properties`
object literal (arguxai-sdk.js lines 39-41). -/
def ambientProps (amb : Ambient) : PropMap :=
  [("page_url", JValue.str amb.page_url),
   ("page_title", JValue.str amb.page_title),
   ("user_agent", JValue.str amb.user_agent)]

/-- Collector state of the ArguxAI SDK (arguxai-sdk.js constructor):
identity, default metadata and the in-memory event queue. -/
structure ArguxAI where
  userId : String
  sessionId : String
  metadata : PropMap
  eventQueue : List Event
deriving DecidableEq, Repr

/-- `ArguxAI.track(eventName, properties)` (arguxai-sdk.js lines 30-56):
constructs the event with spread-merged properties, pushes it at the end of
`eventQueue`, and returns it synchronously.  The returned `Bool` records
whether the threshold check `eventQueue.length >= 10` fired, i.e. whether
`track` immediately invoked `flush`. -/
def ArguxAI.track (st : ArguxAI) (amb : Ambient) (eventName : String)
    (properties : PropMap) : ArguxAI × Event × Bool :=
  let event : Event :=
    { event_name := eventName
      user_id := st.userId
      session_id := st.sessionId
      timestamp := amb.now
      properties := st.metadata ++ properties ++ ambientProps amb }
  let st1 : ArguxAI := { st with eventQueue := st.eventQueue ++ [event] }
  (st1, event, decide (st1.eventQueue.length ≥ 10))

/-- `ArguxAI.flush()` (arguxai-sdk.js lines 112-142).  If the queue is
empty it returns at once (no suspension, so nothing interleaves).
Otherwise it snapshots `events = [...eventQueue]`, empties the live queue,
and awaits the POST; `trackedDuring` is whatever `track` appended to the
live queue while the awaits were pending, and `ok` whether the request
succeeded with `response.ok`.  On failure the `catch` runs
`eventQueue.unshift(...events)`, prepending the snapshot in order.
Returns the new state and the attempted batch (`[]` when none was
attempted).  The `catch` swallows the error, so `flush` is total. -/
def ArguxAI.flush (st : ArguxAI) (trackedDuring : List Event) (ok : Bool) :
    ArguxAI × List Event :=
  if st.eventQueue = [] then (st, [])
  else
    let events := st.eventQueue
    let live := trackedDuring
    if ok then ({ st with eventQueue := live }, events)
    else ({ st with eventQueue := events ++ live }, events)

/-- `ArguxAI.identify(userId, traits)` (arguxai-sdk.js lines 175-181):
reassigns `userId`, spread-merges `traits` into `metadata`, and persists
the id under the `arguxai_user_id` key. -/
def ArguxAI.identify (st : ArguxAI) (ls : Storage) (userId : String)
    (traits : PropMap) : ArguxAI × Storage :=
  ({ st with userId := userId, metadata := st.metadata ++ traits },
   setItem ls "arguxai_user_id" userId)

/-- `ArguxAI.generateUserId()` (arguxai-sdk.js lines 156-163): reuse the
persisted id when present, else persist and return a fresh
`"user_" + random` id (the random suffix is the `fresh` argument). -/
def generateUserId (ls : Storage) (fresh : String) : String × Storage :=
  match getItem ls "arguxai_user_id" with
  | some uid => (uid, ls)
  | none =>
      let uid := "user_" ++ fresh
      (uid, setItem ls "arguxai_user_id" uid)

/-- The constructor line `this.userId = config.userId || this.generateUserId()`
(arguxai-sdk.js line 10): a configured truthy id wins; a missing or empty
(falsy) configured id falls back to `generateUserId`. -/
def constructorUserId (cfgUserId : Option String) (ls : Storage)
    (fresh : String) : String × Storage :=
  match cfgUserId with
  | some u => if u = "" then generateUserId ls fresh else (u, ls)
  | none => generateUserId ls fresh

/-!
Login-page logic.  The repository carries several near-duplicate variants of
the submit handler and of the retry wrapper; each is embedded separately
under its own name.  A handler is modelled as a pure function from the form
inputs to a `SubmitOutcome`: `rejected msg` means the handler called
`showError msg` and returned before any network activity, `attempt` means
control reached the login API call with the given credentials.
-/

/-- JS whitespace characters matched by the regex class backslash-s
(ASCII portion, which covers every input considered here). -/
def isJsSpace (c : Char) : Bool :=
  c = ' ' || c = '\t' || c = '\n' || c = '\r' || c = '\x0b' || c = '\x0c'

/-- A character admitted by the regex class excluding whitespace and the
at sign. -/
def emailChar (c : Char) : Bool := !isJsSpace c && c != '@'

/-- The email regex used by every validating variant,
`/^[^\s@]+@[^\s@]+\.[^\s@]+$/`: a nonempty run of non-space non-at
characters, one at sign, then a domain of non-space non-at characters
containing a dot with nonempty material on both sides (the dot may not be
the first or last domain character, since the runs around it are
nonempty; the runs themselves may contain further dots). -/
def emailRegexMatch (s : String) : Bool :=
  let cs := s.toList
  let locPart := cs.takeWhile (· ≠ '@')
  match cs.dropWhile (· ≠ '@') with
  | [] => false
  | _ :: domain =>
      !locPart.isEmpty && locPart.all emailChar && domain.all emailChar &&
        ((domain.drop 1).dropLast.contains '.')

/-- `validateEmail` of the fixed login page (embedded alongside
arguxai-sdk.js, lines 288-291, and part_002): `re.test(email)`. -/
def validateEmail (email : String) : Bool := emailRegexMatch email

/-- `isValidEmail` of login.js lines 129-132 and part_001 lines 175-178:
the same regex test. -/
def isValidEmail (email : String) : Bool := emailRegexMatch email

/-- Result of running a submit handler on given form inputs. -/
inductive SubmitOutcome where
  | rejected (msg : String)
  | attempt (email password : String)
deriving DecidableEq, Repr

/-- The fixed-variant submit handler (embedded alongside arguxai-sdk.js,
lines 215-283): validates the email, then rejects a falsy (empty) or
short password, and only then reaches `loginUserWithRetry`. -/
def fixedSubmit (email password : String) : SubmitOutcome :=
  if !validateEmail email then
    SubmitOutcome.rejected "Please enter a valid email address"
  else if password = "" ∨ password.length < 6 then
    SubmitOutcome.rejected "Password must be at least 6 characters"
  else
    SubmitOutcome.attempt email password

/-- The intentionally buggy submit handler (part_001 lines 275-328):
no validation of any kind before calling `loginUser` (its own comment,
BUG number 3, says it should validate the email format first). -/
def bugSubmit (email password : String) : SubmitOutcome :=
  SubmitOutcome.attempt email password

/-- The Twilio-variant submit handler (login.js lines 37-124): validates
the email, then checks the rate-limit window, then reaches
`loginUserWithRetry`.  There is no password-length check. -/
def twilioSubmit (email password : String) (now rateLimitResetTime : Nat) :
    SubmitOutcome :=
  if !isValidEmail email then
    SubmitOutcome.rejected "Please enter a valid email address"
  else if now < rateLimitResetTime then
    let waitTime := (rateLimitResetTime - now + 999) / 1000
    SubmitOutcome.rejected
      ("Too many attempts. Please wait " ++ toString waitTime ++
        " seconds before trying again.")
  else
    SubmitOutcome.attempt email password

/-- A thrown JS `Error`: its `name` and `message`. -/
structure JsError where
  name : String
  message : String
deriving DecidableEq, Repr

/-- Whether `ns` is a leading segment of `hs`. -/
def leadsList : List Char → List Char → Bool
  | [], _ => true
  | _ :: _, [] => false
  | a :: as, b :: bs => a == b && leadsList as bs

/-- Whether `ns` occurs contiguously inside `hs`. -/
def hasSubList : List Char → List Char → Bool
  | [], ns => ns.isEmpty
  | h :: t, ns => leadsList ns (h :: t) || hasSubList t ns

/-- JS `hay.includes(needle)` on strings. -/
def strIncludes (hay needle : String) : Bool :=
  hasSubList hay.toList needle.toList

/-- `MAX_RETRIES` of the fixed variant (embedded alongside
arguxai-sdk.js, line 198). -/
def MAX_RETRIES : Nat := 3

/-- The retry guard of the recursive fixed variant (arguxai-sdk.js
embedded page, lines 346-347): the message must mention a timeout or the
network. -/
def retryableFixed (e : JsError) : Bool :=
  strIncludes e.message "timed out" || strIncludes e.message "Network"

/-- The immediate-rethrow guard of the loop variant (part_001 lines
143-146): validation or network-error messages are never retried. -/
def loopNonRetry (e : JsError) : Bool :=
  strIncludes e.message "valid email" || strIncludes e.message "Network error"

/-- `loginUserWithRetry` of the fixed variant (embedded alongside
arguxai-sdk.js, lines 342-354), specialised to the scenario of the claim
in which every attempt of `loginUser` throws: `errs i` is the error
thrown by the attempt made with `retryCount = i`.  Returns the
`retryCount` of the last attempt made together with the error finally
rethrown (so the number of attempts is the first component plus one). -/
def loginUserWithRetry (errs : Nat → JsError) (retryCount : Nat) :
    Nat × JsError :=
  if h : retryCount < MAX_RETRIES ∧ retryableFixed (errs retryCount) = true then
    loginUserWithRetry errs (retryCount + 1)
  else
    (retryCount, errs retryCount)
termination_by MAX_RETRIES - retryCount
decreasing_by omega

/-- `loginUserWithRetry` of the loop variant (part_001 lines 134-157),
specialised to every attempt throwing: the `for` loop runs `attempt` from
0 through `maxRetries`, rethrows immediately on a non-retryable message,
and after the last iteration throws `lastError`.  Returns the index of
the last attempt made and the error finally rethrown. -/
def loginUserWithRetryLoop (errs : Nat → JsError) (attempt maxRetries : Nat) :
    Nat × JsError :=
  if loopNonRetry (errs attempt) = true then
    (attempt, errs attempt)
  else if h : attempt < maxRetries then
    loginUserWithRetryLoop errs (attempt + 1) maxRetries
  else
    (attempt, errs attempt)
termination_by maxRetries - attempt
decreasing_by omega

/-- A constant stream of timeout errors, as thrown by `loginUser` in the
fixed variant when the abort controller fires on every attempt. -/
def timeoutErrs : Nat → JsError :=
  fun _ => { name := "Error", message := "Login timed out. Please try again." }

/-- Sample event used to instantiate queue theorems. -/
def eventA : Event :=
  { event_name := "login_form_viewed", user_id := "u1", session_id := "s1",
    timestamp := 100, properties := [] }

/-- Second sample event, tracked during a pending flush in witnesses. -/
def eventB : Event :=
  { event_name := "button_click", user_id := "u1", session_id := "s1",
    timestamp := 200, properties := [("funnel_step", JValue.str "login")] }

/-- Sample collector state with one queued event. -/
def stOne : ArguxAI :=
  { userId := "u1", sessionId := "s1", metadata := [], eventQueue := [eventA] }

/-- Sample collector state with an empty queue. -/
def stEmpty : ArguxAI :=
  { userId := "u1", sessionId := "s1", metadata := [], eventQueue := [] }

/-- Sample ambient context. -/
def ambW : Ambient :=
  { now := 7, page_url := "https://demo.test/login",
    page_title := "Login", user_agent := "TestUA" }

/-- A sequence of `track` calls, each given as (ambient context, event
name, call-site properties); the collector state threaded through them. -/
def trackSeq : ArguxAI → List (Ambient × String × PropMap) → ArguxAI
  | st, [] => st
  | st, c :: cs => trackSeq (st.track c.1 c.2.1 c.2.2).1 cs

/-- Whether any `track` call of the sequence hit the batch threshold and
so invoked `flush`. -/
def trackSeqFlushed : ArguxAI → List (Ambient × String × PropMap) → Bool
  | _, [] => false
  | st, c :: cs =>
      (st.track c.1 c.2.1 c.2.2).2.2
        || trackSeqFlushed (st.track c.1 c.2.1 c.2.2).1 cs

/-- Two sample track calls for witnesses. -/
def callsW : List (Ambient × String × PropMap) :=
  [(ambW, "email_input_focused", []),
   (ambW, "password_input_focused", [])]

/-- Call-site properties for the layering witness, including a key that
collides with the ambient context. -/
def propsW : PropMap :=
  [("funnel_step", JValue.str "login_form"),
   ("page_url", JValue.str "spoofed")]

/-- Sample collector state with default metadata, for the layering
witness: `funnel_step` is also set at the call site. -/
def stMetaW : ArguxAI :=
  { userId := "u1", sessionId := "s1",
    metadata := [("plan", JValue.str "free"),
                 ("funnel_step", JValue.str "default")],
    eventQueue := [] }

theorem lastLookup_step {α : Type} (k : String) (b : List (String × α)) :
    ∀ acc : Option α,
      b.foldl (fun acc kv => if kv.1 = k then some kv.2 else acc) acc
        = (b.foldl (fun acc kv => if kv.1 = k then some kv.2 else acc) none).or acc := by
  induction b with
  | nil => intro acc; rfl
  | cons kv t ih =>
      intro acc
      rw [List.foldl_cons, List.foldl_cons, ih, ih (if kv.1 = k then some kv.2 else none)]
      cases hgt : t.foldl (fun acc kv => if kv.1 = k then some kv.2 else acc) none with
      | some v => rfl
      | none =>
          by_cases hk : kv.1 = k
          · simp [hk]
          · simp [hk]

theorem getProp_append (a b : PropMap) (k : String) :
    getProp (a ++ b) k = (getProp b k).or (getProp a k) := by
  simp only [getProp, List.foldl_append]
  exact lastLookup_step k b _

theorem getItem_setItem (s : Storage) (k v : String) :
    getItem (setItem s k v) k = some v := by
  simp [getItem, setItem, List.foldl_append]

/-- C1: a failed flush (non-2xx status or thrown network error) re-inserts
the whole attempted batch at the front of the live queue: the queue
afterwards is exactly the failed batch followed by the events tracked
during the attempt, the attempted batch was the full queue at flush start,
and no event is lost.  The `catch` in flush swallows the error, so nothing
is raised to the caller (the embedding of `flush` is a total function with
no error component). -/
theorem flush_failure_requeues_batch (st : ArguxAI) (trackedDuring : List Event)
    (h : st.eventQueue ≠ []) :
    (st.flush trackedDuring false).1.eventQueue = st.eventQueue ++ trackedDuring
    ∧ (st.flush trackedDuring false).2 = st.eventQueue
    ∧ (∀ e : Event, e ∈ (st.flush trackedDuring false).1.eventQueue ↔
        e ∈ st.eventQueue ∨ e ∈ trackedDuring) := by
  refine ⟨?_, ?_, ?_⟩ <;> simp [ArguxAI.flush, h]

theorem flush_failure_requeues_batch_witness :
    (stOne.flush [eventB] false).1.eventQueue = stOne.eventQueue ++ [eventB]
    ∧ (stOne.flush [eventB] false).2 = stOne.eventQueue
    ∧ (∀ e : Event, e ∈ (stOne.flush [eventB] false).1.eventQueue ↔
        e ∈ stOne.eventQueue ∨ e ∈ [eventB]) :=
  flush_failure_requeues_batch stOne [eventB] (by decide)

/-- C2: flush on an empty queue is a no-op (it attempts no batch and leaves
the state untouched), and a successful flush transmits exactly the events
present at flush start while every event tracked during the pending network
call is excluded from that batch and remains queued afterwards. -/
theorem flush_empty_noop_and_success_exact (st1 st2 : ArguxAI)
    (tracked1 tracked2 : List Event) (ok : Bool)
    (h1 : st1.eventQueue = []) (h2 : st2.eventQueue ≠ []) :
    st1.flush tracked1 ok = (st1, [])
    ∧ (st2.flush tracked2 true).2 = st2.eventQueue
    ∧ (st2.flush tracked2 true).1.eventQueue = tracked2
    ∧ (∀ e : Event, e ∈ tracked2 →
        e ∈ (st2.flush tracked2 true).1.eventQueue) := by
  refine ⟨?_, ?_, ?_, ?_⟩ <;> simp [ArguxAI.flush, h1, h2]

theorem flush_empty_noop_and_success_exact_witness :
    stEmpty.flush [] true = (stEmpty, [])
    ∧ (stOne.flush [eventB] true).2 = stOne.eventQueue
    ∧ (stOne.flush [eventB] true).1.eventQueue = [eventB]
    ∧ (∀ e : Event, e ∈ [eventB] →
        e ∈ (stOne.flush [eventB] true).1.eventQueue) :=
  flush_empty_noop_and_success_exact stEmpty stOne [] [eventB] true
    (by decide) (by decide)

theorem trackSeq_length (calls : List (Ambient × String × PropMap)) :
    ∀ st : ArguxAI,
      (trackSeq st calls).eventQueue.length
        = st.eventQueue.length + calls.length := by
  induction calls with
  | nil => intro st; simp [trackSeq]
  | cons c cs ih =>
      intro st
      rw [trackSeq, ih]
      simp [ArguxAI.track]
      omega

theorem trackSeq_no_flush (calls : List (Ambient × String × PropMap)) :
    ∀ st : ArguxAI, st.eventQueue.length + calls.length ≤ 9 →
      trackSeqFlushed st calls = false := by
  induction calls with
  | nil => intro st _; rfl
  | cons c cs ih =>
      intro st h
      simp only [List.length_cons] at h
      rw [trackSeqFlushed]
      have h1 : (st.track c.1 c.2.1 c.2.2).2.2 = false := by
        simp [ArguxAI.track]
        omega
      have h2 : trackSeqFlushed (st.track c.1 c.2.1 c.2.2).1 cs = false := by
        apply ih
        simp [ArguxAI.track]
        omega
      rw [h1, h2]
      rfl

/-- C3: every `track` call appends exactly one event at the end of the
queue; while the queue stays below the batch threshold no flush fires and,
starting from an empty queue, the queue length equals the number of track
calls; and the flush trigger of a single call fires exactly when the push
brings the queue length to 10 or more. -/
theorem track_appends_one_and_batch_threshold (st st0 : ArguxAI)
    (amb : Ambient) (n : String) (p : PropMap)
    (calls : List (Ambient × String × PropMap))
    (h0 : st0.eventQueue = []) (hlen : calls.length ≤ 9) :
    (st.track amb n p).1.eventQueue
        = st.eventQueue ++ [(st.track amb n p).2.1]
    ∧ (st.track amb n p).2.2 = decide (st.eventQueue.length + 1 ≥ 10)
    ∧ (trackSeq st0 calls).eventQueue.length = calls.length
    ∧ trackSeqFlushed st0 calls = false := by
  refine ⟨?_, ?_, ?_, ?_⟩
  · simp [ArguxAI.track]
  · simp [ArguxAI.track]
  · rw [trackSeq_length, h0]
    simp
  · exact trackSeq_no_flush calls st0 (by rw [h0]; simpa using hlen)

theorem track_appends_one_and_batch_threshold_witness :
    (stOne.track ambW "login_button" []).1.eventQueue
        = stOne.eventQueue ++ [(stOne.track ambW "login_button" []).2.1]
    ∧ (stOne.track ambW "login_button" []).2.2
        = decide (stOne.eventQueue.length + 1 ≥ 10)
    ∧ (trackSeq stEmpty callsW).eventQueue.length = callsW.length
    ∧ trackSeqFlushed stEmpty callsW = false :=
  track_appends_one_and_batch_threshold stOne stEmpty ambW "login_button" []
    callsW rfl (by decide)

/-- C6 counterexample: the object `track` constructs carries its name
under the JSON key `event_name`, not `name` as the claim states; at a
concrete tracked event the key `name` is absent from the serialized key
set while `event_name` is present. -/
theorem track_event_key_named_event_name_cex :
    ¬ ("name" ∈ eventJsonKeys (stEmpty.track ambW "login_form_viewed" []).2.1)
    ∧ "event_name" ∈ eventJsonKeys (stEmpty.track ambW "login_form_viewed" []).2.1 := by
  constructor
  · decide
  · decide

/-- C6 (amended): every event constructed by `track` has exactly the
fields `event_name` (string), `user_id` (string), `session_id` (string),
`timestamp` (integer milliseconds epoch, here the ambient `now`), and
`properties` (string-keyed mapping), and `track` returns this constructed
event synchronously — the very event it appended to the queue. -/
theorem track_event_shape (st : ArguxAI) (amb : Ambient) (n : String)
    (p : PropMap) :
    eventJsonKeys (st.track amb n p).2.1
        = ["event_name", "user_id", "session_id", "timestamp", "properties"]
    ∧ (st.track amb n p).2.1.event_name = n
    ∧ (st.track amb n p).2.1.user_id = st.userId
    ∧ (st.track amb n p).2.1.session_id = st.sessionId
    ∧ (st.track amb n p).2.1.timestamp = amb.now
    ∧ (st.track amb n p).2.1.properties = st.metadata ++ p ++ ambientProps amb
    ∧ (st.track amb n p).1.eventQueue
        = st.eventQueue ++ [(st.track amb n p).2.1] := by
  exact ⟨rfl, rfl, rfl, rfl, rfl, rfl, rfl⟩

/-- C9: events already queued are immutable across `identify`: the queue
is untouched by `identify`, a later `track` only appends (every queued
event survives with all fields unchanged), and only the newly tracked
event carries the new identity. -/
theorem identify_frames_queued_events (st : ArguxAI) (ls : Storage)
    (uid : String) (traits : PropMap) (amb : Ambient) (n : String)
    (p : PropMap) :
    (st.identify ls uid traits).1.eventQueue = st.eventQueue
    ∧ ((st.identify ls uid traits).1.track amb n p).1.eventQueue
        = st.eventQueue ++ [((st.identify ls uid traits).1.track amb n p).2.1]
    ∧ (((st.identify ls uid traits).1.track amb n p).2.1).user_id = uid
    ∧ (∀ e : Event, e ∈ st.eventQueue →
        e ∈ ((st.identify ls uid traits).1.track amb n p).1.eventQueue) := by
  refine ⟨rfl, rfl, rfl, ?_⟩
  intro e he
  simp [ArguxAI.identify, ArguxAI.track]
  exact Or.inl he

/-- C10: the properties of a tracked event layer default metadata, then
call-site properties, then the ambient context: the keys `page_url`,
`page_title` and `user_agent` always resolve to the ambient context, and
every other key resolves to the call-site value when present, else to the
default metadata. -/
theorem track_properties_layering (st : ArguxAI) (amb : Ambient)
    (n : String) (p : PropMap) (k : String)
    (h1 : k ≠ "page_url") (h2 : k ≠ "page_title") (h3 : k ≠ "user_agent") :
    getProp ((st.track amb n p).2.1).properties "page_url"
        = some (JValue.str amb.page_url)
    ∧ getProp ((st.track amb n p).2.1).properties "page_title"
        = some (JValue.str amb.page_title)
    ∧ getProp ((st.track amb n p).2.1).properties "user_agent"
        = some (JValue.str amb.user_agent)
    ∧ getProp ((st.track amb n p).2.1).properties k
        = (getProp p k).or (getProp st.metadata k) := by
  have hp : ((st.track amb n p).2.1).properties
      = (st.metadata ++ p) ++ ambientProps amb := rfl
  have ha : getProp (ambientProps amb) k = none := by
    simp [getProp, ambientProps, Ne.symm h1, Ne.symm h2, Ne.symm h3]
  refine ⟨?_, ?_, ?_, ?_⟩
  · rw [hp, getProp_append, getProp_append]
    rfl
  · rw [hp, getProp_append, getProp_append]
    rfl
  · rw [hp, getProp_append, getProp_append]
    rfl
  · rw [hp, getProp_append, getProp_append, ha]
    rfl

theorem track_properties_layering_witness :
    getProp ((stMetaW.track ambW "login_form_viewed" propsW).2.1).properties
        "page_url" = some (JValue.str ambW.page_url)
    ∧ getProp ((stMetaW.track ambW "login_form_viewed" propsW).2.1).properties
        "page_title" = some (JValue.str ambW.page_title)
    ∧ getProp ((stMetaW.track ambW "login_form_viewed" propsW).2.1).properties
        "user_agent" = some (JValue.str ambW.user_agent)
    ∧ getProp ((stMetaW.track ambW "login_form_viewed" propsW).2.1).properties
        "funnel_step"
        = (getProp propsW "funnel_step").or (getProp stMetaW.metadata "funnel_step") :=
  track_properties_layering stMetaW ambW "login_form_viewed" propsW
    "funnel_step" (by decide) (by decide) (by decide)

/-- C8: `identify` replaces the active user id, spread-merges the traits
into the default metadata (so subsequently tracked events carry the new
id and the merged defaults), and persists the id in local storage; at
construction with no configured user id, the persisted id is reused when
present, else the fresh generated id is returned and persisted. -/
theorem identify_replaces_and_persists (st : ArguxAI) (ls ls0 : Storage)
    (uid fresh : String) (traits : PropMap) (amb : Ambient) (n : String)
    (p : PropMap) :
    (st.identify ls uid traits).1.userId = uid
    ∧ (st.identify ls uid traits).1.metadata = st.metadata ++ traits
    ∧ getItem (st.identify ls uid traits).2 "arguxai_user_id" = some uid
    ∧ (((st.identify ls uid traits).1.track amb n p).2.1).user_id = uid
    ∧ (((st.identify ls uid traits).1.track amb n p).2.1).properties
        = (st.metadata ++ traits) ++ p ++ ambientProps amb
    ∧ (constructorUserId none ls0 fresh).1
        = ((getItem ls0 "arguxai_user_id").getD ("user_" ++ fresh))
    ∧ getItem (constructorUserId none ls0 fresh).2 "arguxai_user_id"
        = some (constructorUserId none ls0 fresh).1 := by
  refine ⟨rfl, rfl, ?_, rfl, rfl, ?_, ?_⟩
  · exact getItem_setItem ls "arguxai_user_id" uid
  · simp only [constructorUserId, generateUserId]
    cases hg : getItem ls0 "arguxai_user_id" with
    | some u => simp [hg]
    | none => simp [hg]
  · simp only [constructorUserId, generateUserId]
    cases hg : getItem ls0 "arguxai_user_id" with
    | some u => simp [hg]
    | none => simp [hg, getItem_setItem]

theorem loginUserWithRetry_all (errs : Nat → JsError)
    (h : ∀ i, retryableFixed (errs i) = true) :
    ∀ gas rc, MAX_RETRIES - rc = gas → rc ≤ MAX_RETRIES →
      loginUserWithRetry errs rc = (MAX_RETRIES, errs MAX_RETRIES) := by
  intro gas
  induction gas with
  | zero =>
      intro rc hg hle
      have hrc : rc = MAX_RETRIES := by omega
      subst hrc
      rw [loginUserWithRetry]
      rw [dif_neg]
      intro hcon
      omega
  | succ g ih =>
      intro rc hg hle
      have hlt : rc < MAX_RETRIES := by omega
      rw [loginUserWithRetry, dif_pos ⟨hlt, h rc⟩]
      exact ih (rc + 1) (by omega) (by omega)

theorem loginUserWithRetryLoop_all (errs : Nat → JsError)
    (h : ∀ i, loopNonRetry (errs i) = false) :
    ∀ gas a m, m - a = gas → a ≤ m →
      loginUserWithRetryLoop errs a m = (m, errs m) := by
  intro gas
  induction gas with
  | zero =>
      intro a m hg hle
      have ham : a = m := by omega
      subst ham
      rw [loginUserWithRetryLoop]
      rw [if_neg (by simp [h a])]
      rw [dif_neg (by omega)]
  | succ g ih =>
      intro a m hg hle
      have hlt : a < m := by omega
      rw [loginUserWithRetryLoop, if_neg (by simp [h a]), dif_pos hlt]
      exact ih (a + 1) m (by omega) (by omega)

/-- C5: when every login attempt fails with a retryable transport error,
each cited retry variant performs one bounded retry sequence — exactly
`MAX_RETRIES` additional attempts after the first — and then terminates
by rethrowing the error of the last attempt (which the handler shows to
the user): the recursive fixed variant stops at
`retryCount = MAX_RETRIES`, and the part_001 loop variant runs attempts 0
through `maxRetries`.  Both embeddings are total Lean functions, so the
recursion and the loop terminate on every error stream. -/
theorem retry_bounded_and_rethrows_last (errs : Nat → JsError)
    (hfix : ∀ i, retryableFixed (errs i) = true)
    (hloop : ∀ i, loopNonRetry (errs i) = false) :
    loginUserWithRetry errs 0 = (MAX_RETRIES, errs MAX_RETRIES)
    ∧ loginUserWithRetryLoop errs 0 MAX_RETRIES
        = (MAX_RETRIES, errs MAX_RETRIES) :=
  ⟨loginUserWithRetry_all errs hfix MAX_RETRIES 0 rfl (by omega),
   loginUserWithRetryLoop_all errs hloop MAX_RETRIES 0 MAX_RETRIES rfl (by omega)⟩

theorem retry_bounded_and_rethrows_last_witness :
    loginUserWithRetry timeoutErrs 0 = (MAX_RETRIES, timeoutErrs MAX_RETRIES)
    ∧ loginUserWithRetryLoop timeoutErrs 0 MAX_RETRIES
        = (MAX_RETRIES, timeoutErrs MAX_RETRIES) :=
  retry_bounded_and_rethrows_last timeoutErrs (fun _ => rfl) (fun _ => rfl)

/-- C4 (code evaluated at the failing input): the intentionally buggy
submit handler of part_001 performs the network login call for the
malformed email "not-an-email" instead of rejecting it locally — the
email does not match the validation regex, and the validating fixed
handler rejects the very same input inline with no network call, which
is what the BUG comment in part_001 and the README say should happen. -/
theorem bug_variant_submits_invalid_email :
    bugSubmit "not-an-email" "password123"
        = SubmitOutcome.attempt "not-an-email" "password123"
    ∧ validateEmail "not-an-email" = false
    ∧ fixedSubmit "not-an-email" "password123"
        = SubmitOutcome.rejected "Please enter a valid email address" := by
  refine ⟨rfl, by decide, by decide⟩

/-- C7 counterexample: the Twilio-variant handler (login.js) has no
password-length check, so with the well-formed email "user@example.com"
and the 3-character password "abc" it proceeds to the network login call
instead of rejecting the submission locally. -/
theorem twilio_short_password_reaches_network_cex :
    twilioSubmit "user@example.com" "abc" 0 0
        = SubmitOutcome.attempt "user@example.com" "abc" := by
  decide

/-- C7 (amended): in the submit-handler variant that checks the password
(the fixed login page embedded alongside arguxai-sdk.js), every
submission with a regex-valid email and a password shorter than the
6-character minimum is rejected locally with the inline message and
never reaches the network call; the Twilio variant validates only the
email format. -/
theorem fixed_short_password_rejected (email password : String)
    (hm : validateEmail email = true) (hlen : password.length < 6) :
    fixedSubmit email password
        = SubmitOutcome.rejected "Password must be at least 6 characters" := by
  simp [fixedSubmit, hm, hlen]

theorem fixed_short_password_rejected_witness :
    fixedSubmit "user@example.com" "abc"
        = SubmitOutcome.rejected "Password must be at least 6 characters" :=
  fixed_short_password_rejected "user@example.com" "abc" (by decide) (by decide)
